import Mathlib

/-!
Shallow embedding of the crypto-pulse-bot signal pipeline.

Sources embedded (python):
- `analytics/multi_timeframe_analyzer.py` : per-timeframe results, weighted
  consensus (`_calculate_consensus`), degraded-on-error aggregation
  (`analyze_all_timeframes`).
- `services/signal_quality.py` : the ten-factor quality rater
  (`EnhancedSignalQualityRater.rate_signal`) and the strength classifier
  (`_calculate_strength`).
- `core/advanced_signal_generator.py` : entry/stop/target derivation of
  `get_data_and_analyze` (lines 388-445) and of `analyze_pair` (lines 76-103),
  and the WEAK/LOW quality gate.
- `services/risk_manager.py` : `check_user_limits` and
  `calculate_position_size`.
- `analytics/signal_tracker.py` : `add_signal` and the per-tick TP/SL check of
  `start_monitoring`.

Python floats are modelled as exact rationals (`ℚ`), Python ints as `ℕ`/`ℤ`,
dictionaries with optional keys as structures with `Option` fields, and code
that can raise as `Option`-returning functions (`none` = exception).
-/

namespace CryptoPulse

/-- `sorted(xs)` (ascending), as used by the candidate builder. -/
def sortAsc (xs : List ℚ) : List ℚ := List.insertionSort (· ≤ ·) xs

/-- `sorted(xs, reverse=True)` (descending). -/
def sortDesc (xs : List ℚ) : List ℚ := (sortAsc xs).reverse

/-- `Series.nsmallest(3)`: the three smallest elements, ascending. -/
def nsmallest3 (xs : List ℚ) : List ℚ := (sortAsc xs).take 3

/-- `Series.nlargest(3)`: the three largest elements, descending. -/
def nlargest3 (xs : List ℚ) : List ℚ := (sortDesc xs).take 3

/-- `min(arr)` with a default for the empty case (the source guards with
`if len(...) > 0 else default`). -/
def listMin (xs : List ℚ) (dflt : ℚ) : ℚ :=
  match xs with
  | [] => dflt
  | x :: rest => rest.foldl min x

/-- `max(arr)` with a default for the empty case. -/
def listMax (xs : List ℚ) (dflt : ℚ) : ℚ :=
  match xs with
  | [] => dflt
  | x :: rest => rest.foldl max x

/-- Python `round` to an integer: round half to even (banker's rounding). -/
def roundHalfEven (x : ℚ) : ℤ :=
  if x - ⌊x⌋ = 1 / 2 then (if 2 ∣ ⌊x⌋ then ⌊x⌋ else ⌊x⌋ + 1) else round x

/-- Python `round(x, 2)`. -/
def round2 (x : ℚ) : ℚ := (roundHalfEven (x * 100) : ℚ) / 100

/-- Python `a or default` for an optional numeric attribute: `None` and `0`
are both falsy and yield the default. -/
def orDefault (x : Option ℚ) (d : ℚ) : ℚ :=
  match x with
  | none => d
  | some v => if v = 0 then d else v

/-- Python `a or default` for an optional integer attribute. -/
def orDefaultNat (x : Option ℕ) (d : ℕ) : ℕ :=
  match x with
  | none => d
  | some v => if v = 0 then d else v

/-! ## `analytics/multi_timeframe_analyzer.py` -/

/-- One per-timeframe analysis result, as the dictionaries built by
`MultiTimeframeAnalyzer._analyze_timeframe` (which always carries an
`ema_trend` key) and the degraded dictionary of the exception handler of
`analyze_all_timeframes` (which has no `ema_trend` key): the optional field
models presence of the key. The `price`/`rsi` entries are never read by the
consensus or the rater factors embedded here beyond these fields. -/
structure TFResult where
  trend : String
  signal : String
  strength : ℚ
  ema_trend : Option String
deriving DecidableEq, Repr

/-- `self.weights` of `MultiTimeframeAnalyzer.__init__`, read through
`self.weights.get(tf, 0.1)`. -/
def tfWeight (tf : String) : ℚ :=
  if tf = "15m" then 2 / 10
  else if tf = "1h" then 3 / 10
  else if tf = "4h" then 5 / 10
  else 1 / 10

/-- The timeframes whose `signal` is not `'none'` (the participating ones of
`_calculate_consensus`). -/
def participating (results : List (String × TFResult)) : List (String × TFResult) :=
  results.filter (fun p => p.2.signal ≠ "none")

/-- The accumulated `strength * weight` sum of `_calculate_consensus`. -/
def weightedStrengthOf (results : List (String × TFResult)) : ℚ :=
  ((participating results).map (fun p => p.2.strength * tfWeight p.1)).sum

/-- `total_weight` of `_calculate_consensus`. -/
def totalWeightOf (results : List (String × TFResult)) : ℚ :=
  ((participating results).map (fun p => tfWeight p.1)).sum

/-- `vote_count['BUY']` of `_calculate_consensus`. -/
def voteBuyOf (results : List (String × TFResult)) : ℚ :=
  (((participating results).filter (fun p => p.2.signal = "BUY")).map
    (fun p => tfWeight p.1)).sum

/-- `vote_count['SELL']` of `_calculate_consensus`. -/
def voteSellOf (results : List (String × TFResult)) : ℚ :=
  (((participating results).filter (fun p => p.2.signal = "SELL")).map
    (fun p => tfWeight p.1)).sum

/-- The value returned by `_calculate_consensus` (the `vote_count` entry of
the returned dictionary is recoverable via `voteBuyOf`/`voteSellOf` and is
not needed by any caller embedded here). -/
structure Consensus where
  final_signal : String
  confidence : ℚ
deriving DecidableEq, Repr

/-- `MultiTimeframeAnalyzer._calculate_consensus`. The source accumulates
votes into a dict with exactly the keys `BUY`/`SELL`; per-timeframe signals
are always `'BUY'`, `'SELL'` or `'none'` (see `_determine_signal`), which the
filtered weight sums reproduce. Note that in every branch with at least one
participating signal — the tie branch included — the returned confidence is
the blend `(confidence + weighted_strength) / 2`. -/
def calculateConsensus (results : List (String × TFResult)) : Consensus :=
  if participating results = [] then ⟨"none", 0⟩
  else
    let voteBuy := voteBuyOf results
    let voteSell := voteSellOf results
    let pre : String × ℚ :=
      if voteSell < voteBuy then ("BUY", voteBuy / totalWeightOf results)
      else if voteBuy < voteSell then ("SELL", voteSell / totalWeightOf results)
      else ("none", 0)
    ⟨pre.1, (pre.2 + weightedStrengthOf results) / 2⟩

/-- The degraded per-timeframe result installed by the exception handler of
`analyze_all_timeframes`: `{'trend': 'neutral', 'signal': 'none',
'strength': 0}` (no `ema_trend` key). -/
def degradedResult : TFResult := ⟨"neutral", "none", 0, none⟩

/-- The dictionary returned by `analyze_all_timeframes`. -/
structure MTFOutput where
  timeframe_results : List (String × TFResult)
  final_signal : String
  confidence : ℚ
deriving DecidableEq, Repr

/-- `MultiTimeframeAnalyzer.analyze_all_timeframes`: per configured
timeframe, fetching candles and computing the analysis is the collaborator
`analyze`; an exception anywhere in that body (modelled as `Except.error`)
degrades that timeframe's entry to `degradedResult` and is swallowed. The
function is total: no error escapes to the caller. -/
def analyzeAllTimeframes (timeframes : List String)
    (analyze : String → Except String TFResult) : MTFOutput :=
  let results := timeframes.map (fun tf =>
    (tf, match analyze tf with
         | .ok r => r
         | .error _ => degradedResult))
  let c := calculateConsensus results
  ⟨results, c.final_signal, c.confidence⟩

/-! ## `services/signal_quality.py` -/

/-- The `SignalStrength` enum. -/
inductive SignalStrength where
  | WEAK
  | LOW
  | MEDIUM
  | HIGH
  | STRONG
deriving DecidableEq, Repr

/-- `SignalStrength.value` (the string stored in the report). -/
def SignalStrength.value : SignalStrength → String
  | .WEAK => "WEAK"
  | .LOW => "LOW"
  | .MEDIUM => "MEDIUM"
  | .HIGH => "HIGH"
  | .STRONG => "STRONG"

/-- A factor's `details` dictionary. The source builds one reason string per
factor, interpolating numeric values with f-strings; we keep the fixed text
as `tag` and the interpolated numbers as `vals` (string formatting of floats
carries no extra information). -/
structure Detail where
  tag : String
  vals : List ℚ
deriving DecidableEq, Repr

/-- One entry of the report's `factors` dictionary. -/
structure Factor where
  score : ℕ
  maxScore : ℕ
  details : Detail
deriving DecidableEq, Repr

/-- The signal dictionary consumed by `rate_signal` and its factor helpers.
Each `Option` field models presence of the corresponding key; the helpers
read them via `.get(key)` / `.get(key, 0)` / `.get(key, '')`. -/
structure SignalData where
  symbol : String
  signal_type : Option String
  timeframe_analysis : Option (List (String × TFResult))
  volume : Option ℚ
  rsi : Option ℚ
  entry_price : Option ℚ
  stop_loss : Option ℚ
  take_profit_1 : Option ℚ
  atr : Option ℚ
deriving DecidableEq, Repr

/-- `_rate_mtf_consensus`. -/
def rateMtfConsensus (sd : SignalData) : ℕ × Detail :=
  match sd.timeframe_analysis with
  | none => (0, ⟨"No MTF data available", []⟩)
  | some tfResults =>
    let signals := tfResults.filter (fun p => p.2.signal ≠ "none")
    if signals.length < 2 then (0, ⟨"Less than 2 timeframes confirm", []⟩)
    else
      let buyCount := (signals.filter (fun p => p.2.signal = "BUY")).length
      let sellCount := (signals.filter (fun p => p.2.signal = "SELL")).length
      if buyCount = signals.length then
        (2, ⟨"All timeframes confirm BUY", [(signals.length : ℚ)]⟩)
      else if sellCount = signals.length then
        (2, ⟨"All timeframes confirm SELL", [(signals.length : ℚ)]⟩)
      else if 2 ≤ ((buyCount : ℤ) - sellCount).natAbs then
        (1, ⟨"Strong majority", [(max buyCount sellCount : ℚ), (signals.length : ℚ)]⟩)
      else (0, ⟨"No clear consensus", []⟩)

/-- `_rate_trend_strength`. -/
def rateTrendStrength (sd : SignalData) : ℕ × Detail :=
  match sd.timeframe_analysis with
  | none => (0, ⟨"No trend data", []⟩)
  | some tfResults =>
    let trends := tfResults.filterMap (fun p => p.2.ema_trend)
    if trends.length < 2 then (0, ⟨"Insufficient trend data", []⟩)
    else
      let bullishCount := (trends.filter (fun t => t = "bullish")).length
      let bearishCount := (trends.filter (fun t => t = "bearish")).length
      let signalType := sd.signal_type.getD ""
      if signalType = "BUY" ∧ 2 ≤ bullishCount then
        (2, ⟨"Strong bullish trend", [(bullishCount : ℚ), (trends.length : ℚ)]⟩)
      else if signalType = "SELL" ∧ 2 ≤ bearishCount then
        (2, ⟨"Strong bearish trend", [(bearishCount : ℚ), (trends.length : ℚ)]⟩)
      else if (signalType = "BUY" ∧ bullishCount = 1) ∨
              (signalType = "SELL" ∧ bearishCount = 1) then
        (1, ⟨"Weak trend alignment", []⟩)
      else (0, ⟨"Trend contradicts signal", []⟩)

/-- `self.volume_period` of `EnhancedSignalQualityRater.__init__`. -/
def volumePeriod : ℕ := 20

/-- `_rate_volume`. `historicalVolumes = none` models both a missing/falsy
`historical_data` argument and a `historical_data` without a `'volumes'`
key. `np.mean(volumes[-20:])` is the arithmetic mean of the last 20. -/
def rateVolume (sd : SignalData) (historicalVolumes : Option (List ℚ)) :
    ℕ × Detail :=
  match historicalVolumes with
  | none => (0, ⟨"No volume data available", []⟩)
  | some volumes =>
    let currentVolume := sd.volume.getD 0
    if volumes.length < volumePeriod then
      (0, ⟨"Insufficient historical volume data", []⟩)
    else
      let lastN := volumes.drop (volumes.length - volumePeriod)
      let avgVolume := lastN.sum / (lastN.length : ℚ)
      if currentVolume = 0 ∨ avgVolume = 0 then (0, ⟨"Invalid volume data", []⟩)
      else
        let ratio := currentVolume / avgVolume
        if 2 < ratio then (2, ⟨"Volume spike", [ratio]⟩)
        else if 3 / 2 < ratio then (1, ⟨"Above average volume", [ratio]⟩)
        else if ratio < 1 / 2 then (0, ⟨"Low volume (caution)", [ratio]⟩)
        else (0, ⟨"Normal volume", [ratio]⟩)

/-- `_rate_rsi`. `if not rsi` treats a missing key and the float `0.0` the
same way. -/
def rateRsi (sd : SignalData) : ℕ × Detail :=
  let rsi := sd.rsi.getD 0
  if sd.rsi = none ∨ rsi = 0 then (0, ⟨"No RSI data", []⟩)
  else
    let signalType := sd.signal_type.getD ""
    if signalType = "BUY" then
      if rsi < 30 then (1, ⟨"RSI oversold", [rsi]⟩)
      else if rsi < 35 then (0, ⟨"RSI near oversold", [rsi]⟩)
      else (0, ⟨"RSI not in buy zone", [rsi]⟩)
    else if signalType = "SELL" then
      if 70 < rsi then (1, ⟨"RSI overbought", [rsi]⟩)
      else if 65 < rsi then (0, ⟨"RSI near overbought", [rsi]⟩)
      else (0, ⟨"RSI not in sell zone", [rsi]⟩)
    else (0, ⟨"RSI neutral", [rsi]⟩)

/-- `_rate_risk_reward`. With exact rationals none of the float conversions
of the source's `try` block can raise. -/
def rateRiskReward (sd : SignalData) : ℕ × Detail :=
  let entry := sd.entry_price.getD 0
  let sl := sd.stop_loss.getD 0
  let tp1 := sd.take_profit_1.getD 0
  if entry = 0 ∨ sl = 0 ∨ tp1 = 0 then (0, ⟨"Invalid price levels", []⟩)
  else
    let risk := |entry - sl|
    let reward := |tp1 - entry|
    if risk = 0 then (0, ⟨"Zero risk", []⟩)
    else
      let rrRatio := reward / risk
      if 2 ≤ rrRatio then (1, ⟨"Excellent R/R", [rrRatio]⟩)
      else if 3 / 2 ≤ rrRatio then (0, ⟨"Good R/R", [rrRatio]⟩)
      else (0, ⟨"Poor R/R", [rrRatio]⟩)

/-- `_rate_volatility`. `if not atr` treats a missing key and `0.0` the
same way. -/
def rateVolatility (sd : SignalData) : ℕ × Detail :=
  let atr := sd.atr.getD 0
  let currentPrice := sd.entry_price.getD 0
  if sd.atr = none ∨ atr = 0 ∨ currentPrice = 0 then
    (0, ⟨"No volatility data", []⟩)
  else
    let atrPercent := atr / currentPrice * 100
    if 1 ≤ atrPercent ∧ atrPercent ≤ 3 then (1, ⟨"Ideal volatility", [atrPercent]⟩)
    else if atrPercent < 1 / 2 then
      (0, ⟨"Low volatility (may be false breakout)", [atrPercent]⟩)
    else if 5 < atrPercent then
      (0, ⟨"High volatility (increased risk)", [atrPercent]⟩)
    else (0, ⟨"Normal volatility", [atrPercent]⟩)

/-- `_check_divergence` (stub: always 0). -/
def checkDivergence : ℕ × Detail :=
  (0, ⟨"Divergence check not implemented yet", []⟩)

/-- `_check_support_resistance` (stub: always 0). -/
def checkSupportResistance : ℕ × Detail :=
  (0, ⟨"S/R analysis not implemented yet", []⟩)

/-- `_rate_time_of_day`, with `datetime.now(timezone.utc).hour` lifted to the
explicit parameter `hour` (the only clock read that feeds a factor score). -/
def rateTimeOfDay (hour : ℕ) : ℕ × Detail :=
  if 8 ≤ hour ∧ hour < 16 then (1, ⟨"London session", [(hour : ℚ)]⟩)
  else if 13 ≤ hour ∧ hour < 21 then (1, ⟨"New York session", [(hour : ℚ)]⟩)
  else if hour < 8 then (0, ⟨"Asian session - lower liquidity", [(hour : ℚ)]⟩)
  else (0, ⟨"Between sessions", [(hour : ℚ)]⟩)

/-- `_rate_news_background` (stub: always 0). -/
def rateNewsBackground : ℕ × Detail :=
  (0, ⟨"News analysis not implemented yet", []⟩)

/-- `_calculate_strength`. -/
def calculateStrength (score maxScore : ℕ) : SignalStrength :=
  let percentage : ℚ := if 0 < maxScore then (score : ℚ) / maxScore * 100 else 0
  if 90 ≤ percentage then .STRONG
  else if 75 ≤ percentage then .HIGH
  else if 60 ≤ percentage then .MEDIUM
  else if 40 ≤ percentage then .LOW
  else .WEAK

/-- `_get_recommendation`. -/
def getRecommendation : SignalStrength → String
  | .STRONG => "STRONG BUY/SELL - High confidence"
  | .HIGH => "BUY/SELL - Good setup"
  | .MEDIUM => "Consider BUY/SELL - Moderate confidence"
  | .LOW => "Watch for confirmation - Low confidence"
  | .WEAK => "Avoid - Weak setup"

/-- The report returned by `rate_signal`, without its `timestamp` entry: the
source stamps the report with the full wall-clock time, which no consumer
reads and which is not part of the fields compared here. -/
structure QualityReport where
  strength : String
  total_score : ℕ
  max_score : ℕ
  percentage : ℚ
  factors : List (String × Factor)
  recommendation : String
deriving DecidableEq, Repr

/-- `_create_empty_rating`. -/
def createEmptyRating : QualityReport :=
  ⟨SignalStrength.WEAK.value, 0, 12, 0, [], "No signal data"⟩

/-- `EnhancedSignalQualityRater.rate_signal`. `signalData = none` models a
falsy (empty/`None`) `signal_data` argument; `hour` is the current UTC hour
read inside `_rate_time_of_day`. -/
def rateSignal (signalData : Option SignalData)
    (historicalVolumes : Option (List ℚ)) (hour : ℕ) : QualityReport :=
  match signalData with
  | none => createEmptyRating
  | some sd =>
    let mtf := rateMtfConsensus sd
    let trend := rateTrendStrength sd
    let volume := rateVolume sd historicalVolumes
    let rsi := rateRsi sd
    let rr := rateRiskReward sd
    let atr := rateVolatility sd
    let div := checkDivergence
    let sr := checkSupportResistance
    let tod := rateTimeOfDay hour
    let news := rateNewsBackground
    let totalScore := mtf.1 + trend.1 + volume.1 + rsi.1 + rr.1 + atr.1 +
      div.1 + sr.1 + tod.1 + news.1
    let maxPossible : ℕ := 2 + 2 + 2 + 1 + 1 + 1 + 1 + 1 + 1 + 1
    let strength := calculateStrength totalScore maxPossible
    { strength := strength.value
      total_score := totalScore
      max_score := maxPossible
      percentage := if 0 < maxPossible then (totalScore : ℚ) / maxPossible * 100 else 0
      factors :=
        [("mtf_consensus", ⟨mtf.1, 2, mtf.2⟩),
         ("trend_strength", ⟨trend.1, 2, trend.2⟩),
         ("volume", ⟨volume.1, 2, volume.2⟩),
         ("rsi", ⟨rsi.1, 1, rsi.2⟩),
         ("risk_reward", ⟨rr.1, 1, rr.2⟩),
         ("volatility", ⟨atr.1, 1, atr.2⟩),
         ("divergence", ⟨div.1, 1, div.2⟩),
         ("support_resistance", ⟨sr.1, 1, sr.2⟩),
         ("market_hours", ⟨tod.1, 1, tod.2⟩),
         ("news", ⟨news.1, 1, news.2⟩)]
      recommendation := getRecommendation strength }

/-! ## `core/advanced_signal_generator.py` -/

/-- `self.ATR_SL_MULT` of `AdvancedSignalGenerator.__init__`. -/
def ATR_SL_MULT : ℚ := 2

/-- `self.MIN_RR` of `AdvancedSignalGenerator.__init__`. -/
def MIN_RR : ℚ := 2

/-- The price levels computed by `get_data_and_analyze` (step 6 and the
minimum-RR check), together with the `risk` distance and the
`risk_reward` ratio recomputed at step 7 after the correction. -/
structure Levels where
  sl : ℚ
  tp1 : ℚ
  tp2 : ℚ
  tp3 : ℚ
  risk : ℚ
  risk_reward : ℚ
deriving DecidableEq, Repr

/-- BUY stop of `get_data_and_analyze`: `lows` is
`df['low'].tail(LOOKBACK_BARS)`. `min(support_levels)` over the up-to-3
smallest lows, defaulted to `entry - atr*2` when empty, then
`min(local_min, entry - atr*ATR_SL_MULT)`. -/
def buySL (entry atr : ℚ) (lows : List ℚ) : ℚ :=
  min (listMin (nsmallest3 lows) (entry - atr * 2)) (entry - atr * ATR_SL_MULT)

/-- BUY targets of `get_data_and_analyze`: `highs` is
`df['high'].tail(LOOKBACK_BARS)`. The three largest highs sorted ascending
become tp1/tp2/tp3, with tp1 forced up to `entry + risk` when closer than
1R; fewer than three highs fall back to `entry + risk*{1,2,3}`. The second
match arm is unreachable (a take-3 with length ≥ 3 has exactly 3 elements). -/
def buyTPs (entry risk : ℚ) (highs : List ℚ) : ℚ × ℚ × ℚ :=
  let resistanceLevels := nlargest3 highs
  if 3 ≤ resistanceLevels.length then
    match sortAsc resistanceLevels with
    | t1 :: t2 :: t3 :: _ =>
      (if t1 < entry + risk then entry + risk else t1, t2, t3)
    | _ => (entry + risk, entry + risk * 2, entry + risk * 3)
  else (entry + risk, entry + risk * 2, entry + risk * 3)

/-- `risk = entry - sl` of the BUY branch. -/
def buyRisk (entry atr : ℚ) (lows : List ℚ) : ℚ := entry - buySL entry atr lows

/-- The BUY `tp1` after the minimum-RR check: `current_rr = (tp1 - entry) /
risk; if current_rr < MIN_RR: tp1 = entry + risk * MIN_RR`. -/
def buyTP1 (entry atr : ℚ) (lows highs : List ℚ) : ℚ :=
  if ((buyTPs entry (buyRisk entry atr lows) highs).1 - entry) /
      buyRisk entry atr lows < MIN_RR then
    entry + buyRisk entry atr lows * MIN_RR
  else (buyTPs entry (buyRisk entry atr lows) highs).1

/-- The BUY branch of step 6 of `get_data_and_analyze` followed by the
minimum-RR correction and the `risk_reward` recomputation of step 7. -/
def buyLevels (entry atr : ℚ) (lows highs : List ℚ) : Levels :=
  ⟨buySL entry atr lows, buyTP1 entry atr lows highs,
   (buyTPs entry (buyRisk entry atr lows) highs).2.1,
   (buyTPs entry (buyRisk entry atr lows) highs).2.2,
   buyRisk entry atr lows,
   (buyTP1 entry atr lows highs - entry) / buyRisk entry atr lows⟩

/-- SELL stop of `get_data_and_analyze`: `max(resistance_levels)` over the
up-to-3 largest highs, defaulted to `entry + atr*2` when empty, then
`max(local_max, entry + atr*ATR_SL_MULT)`. -/
def sellSL (entry atr : ℚ) (highs : List ℚ) : ℚ :=
  max (listMax (nlargest3 highs) (entry + atr * 2)) (entry + atr * ATR_SL_MULT)

/-- SELL targets of `get_data_and_analyze`: the three smallest lows filtered
to those below entry, sorted descending; fewer than three (either before or
after the filter) falls back to `entry - atr*MIN_RR*{1, 1.5, 2}`. The second
match arm is unreachable. -/
def sellTPs (entry atr : ℚ) (lows : List ℚ) : ℚ × ℚ × ℚ :=
  let supportLevels := nsmallest3 lows
  if 3 ≤ supportLevels.length then
    let validSupports := supportLevels.filter (fun s => s < entry)
    if 3 ≤ validSupports.length then
      match sortDesc validSupports with
      | t1 :: t2 :: t3 :: _ => (t1, t2, t3)
      | _ => (entry - atr * MIN_RR, entry - atr * (MIN_RR * (3 / 2)),
              entry - atr * (MIN_RR * 2))
    else (entry - atr * MIN_RR, entry - atr * (MIN_RR * (3 / 2)),
          entry - atr * (MIN_RR * 2))
  else (entry - atr * MIN_RR, entry - atr * (MIN_RR * (3 / 2)),
        entry - atr * (MIN_RR * 2))

/-- `risk = sl - entry` of the SELL branch. -/
def sellRisk (entry atr : ℚ) (highs : List ℚ) : ℚ :=
  sellSL entry atr highs - entry

/-- The SELL `tp1` after the `if tp1 >= entry` guard of step 6. -/
def sellTP1a (entry atr : ℚ) (lows : List ℚ) : ℚ :=
  if entry ≤ (sellTPs entry atr lows).1 then entry - atr * MIN_RR
  else (sellTPs entry atr lows).1

/-- The SELL `tp1` after the minimum-RR check: `current_rr = (entry - tp1) /
risk; if current_rr < MIN_RR: tp1 = entry - risk * MIN_RR`. -/
def sellTP1 (entry atr : ℚ) (lows highs : List ℚ) : ℚ :=
  if (entry - sellTP1a entry atr lows) / sellRisk entry atr highs < MIN_RR then
    entry - sellRisk entry atr highs * MIN_RR
  else sellTP1a entry atr lows

/-- The SELL branch of step 6 of `get_data_and_analyze` (including the
`if tp1 >= entry` guard) followed by the minimum-RR correction and the
`risk_reward` recomputation. -/
def sellLevels (entry atr : ℚ) (lows highs : List ℚ) : Levels :=
  ⟨sellSL entry atr highs, sellTP1 entry atr lows highs,
   (sellTPs entry atr lows).2.1,
   (sellTPs entry atr lows).2.2,
   sellRisk entry atr highs,
   (entry - sellTP1 entry atr lows highs) / sellRisk entry atr highs⟩

/-- The price levels built by `analyze_pair` (step 5): entry = current
price, stop at `1.5*ATR`, targets at `1*ATR` and `2*ATR`, with no
reward/risk correction step anywhere in that method. Returns
`(entry, stop_loss, take_profit_1, take_profit_2)`. -/
def analyzePairLevels (finalSignal : String) (currentPrice atr : ℚ) :
    ℚ × ℚ × ℚ × ℚ :=
  if finalSignal = "BUY" then
    (currentPrice, currentPrice - atr * (3 / 2), currentPrice + atr * 1,
     currentPrice + atr * 2)
  else
    (currentPrice, currentPrice + atr * (3 / 2), currentPrice - atr * 1,
     currentPrice - atr * 2)

/-- Step 9 of `get_data_and_analyze` (and step 10 of `analyze_pair`): a
candidate whose quality strength is `'WEAK'` or `'LOW'` is dropped
(`return None`); otherwise the signal is returned. -/
def qualityGate {α : Type} (strengthValue : String) (sig : α) : Option α :=
  if strengthValue = "WEAK" ∨ strengthValue = "LOW" then none else some sig

/-! ## `services/risk_manager.py` -/

/-- The `User` ORM fields read by `RiskManager.check_user_limits`.
Timestamps are modelled as integers; `Option` models SQL NULL. -/
structure User where
  daily_risk_limit : Option ℚ
  daily_risk_used : ℚ
  risk_reset_time : Option ℤ
  max_open_positions : Option ℕ
  deposit : Option ℚ
  risk_per_trade : Option ℚ
deriving DecidableEq, Repr

/-- The dictionary returned by `check_user_limits`. The source's reasons are
formatted Russian messages; we keep stable English tags. -/
structure Decision where
  allowed : Bool
  reason : String
  position_size : Option ℚ
deriving DecidableEq, Repr

/-- `RiskManager.calculate_position_size`:
`(deposit * risk_per_trade / 100) / (signal_risk / 100)` rounded to 2
decimals. `signal_risk = 0` makes the Python division raise
`ZeroDivisionError`, modelled as `none`. -/
def calculatePositionSize (deposit signalRisk riskPerTrade : ℚ) : Option ℚ :=
  if signalRisk = 0 then none
  else some (round2 ((deposit * riskPerTrade / 100) / (signalRisk / 100)))

/-- The lazy daily reset at the top of `check_user_limits`: when
`risk_reset_time` has elapsed, `daily_risk_used` is zeroed and the reset
time advances by one day (timestamps in days here). -/
def lazyReset (user : User) (currentTime : ℤ) : User :=
  match user.risk_reset_time with
  | some t =>
    if t < currentTime then
      { user with daily_risk_used := 0,
                  risk_reset_time := some (currentTime + 1) }
    else user
  | none => user

/-- `RiskManager.check_user_limits` for an existing user. The open-position
count of the `SignalHistory` query is abstracted as `openCount`; `none`
models an uncaught exception (the unguarded division at `signal_risk = 0`). -/
def checkUserLimits (user : User) (signalRisk : ℚ) (currentTime : ℤ)
    (openCount : ℕ) : Option Decision :=
  let u := lazyReset user currentTime
  let dailyRiskLimit := orDefault u.daily_risk_limit 5
  if dailyRiskLimit < u.daily_risk_used + signalRisk then
    some ⟨false, "daily risk limit reached", none⟩
  else
    let maxPositions := orDefaultNat u.max_open_positions 5
    if maxPositions ≤ openCount then
      some ⟨false, "open position limit reached", none⟩
    else
      match calculatePositionSize (orDefault u.deposit 1000) signalRisk
          (orDefault u.risk_per_trade 1) with
      | none => none
      | some ps => some ⟨true, "limits ok", some ps⟩

/-! ## `analytics/signal_tracker.py` -/

/-- One tracked entry of `SignalTracker.active_signals` (the monitoring loop
reads exactly these keys; the `tp`-from-`tp1` fallback of `add_signal` and
of the loop has already been applied, as it is for every signal that reaches
the TP/SL check). -/
structure TrackedSig where
  symbol : String
  side : String
  entry : ℚ
  tp : ℚ
  sl : ℚ
deriving DecidableEq, Repr

/-- The per-signal TP/SL check of one `start_monitoring` iteration: the TP
condition is tested first, the SL condition only in the `elif`, so at most
one outcome fires per signal per tick. -/
def checkClose (sig : TrackedSig) (currentPrice : ℚ) : Option String :=
  if (sig.side = "buy" ∧ sig.tp ≤ currentPrice) ∨
     (sig.side = "sell" ∧ currentPrice ≤ sig.tp) then some "TP"
  else if (sig.side = "buy" ∧ currentPrice ≤ sig.sl) ∨
          (sig.side = "sell" ∧ sig.sl ≤ currentPrice) then some "SL"
  else none

/-- One tick of `start_monitoring` over the active list: the source iterates
over a copy of `active_signals`, removing each signal that closed (the
entries are pairwise distinct since `add_signal` keeps one per symbol, so
`list.remove` deletes exactly the processed element). Returns the surviving
open list and the closed signals with their outcome codes. -/
def monitorTick (active : List TrackedSig) (prices : String → ℚ) :
    List TrackedSig × List (TrackedSig × String) :=
  match active with
  | [] => ([], [])
  | s :: rest =>
    let r := monitorTick rest prices
    match checkClose s (prices s.symbol) with
    | some outcome => (r.1, (s, outcome) :: r.2)
    | none => (s :: r.1, r.2)

/-- `SignalTracker.add_signal`: a new signal whose symbol already appears in
`active_signals` is dropped before `save_new_signal` is called; otherwise it
is persisted and appended. The boolean records whether `save_new_signal`
ran (i.e. whether the persisted history changed). -/
def addSignal (active : List TrackedSig) (sig : TrackedSig) :
    List TrackedSig × Bool :=
  if active.any (fun s => s.symbol = sig.symbol) then (active, false)
  else (active ++ [sig], true)

/-! ## Sorting facts used by the level-ordering proofs -/

lemma sortAsc_sorted (xs : List ℚ) : (sortAsc xs).Sorted (· ≤ ·) :=
  List.sorted_insertionSort _ xs

lemma sortAsc_cons3 {xs : List ℚ} {a b c : ℚ} {rest : List ℚ}
    (h : sortAsc xs = a :: b :: c :: rest) : a ≤ b ∧ b ≤ c := by
  have hs := sortAsc_sorted xs
  rw [h] at hs
  obtain ⟨ha, hs⟩ := List.sorted_cons.mp hs
  obtain ⟨hb, _⟩ := List.sorted_cons.mp hs
  exact ⟨ha b (by simp), hb c (by simp)⟩

lemma sortDesc_cons3 {xs : List ℚ} {a b c : ℚ} {rest : List ℚ}
    (h : sortDesc xs = a :: b :: c :: rest) : b ≤ a ∧ c ≤ b := by
  have hp : List.Pairwise (fun x y => y ≤ x) (sortDesc xs) := by
    rw [sortDesc]
    exact List.pairwise_reverse.mpr (by simpa using sortAsc_sorted xs)
  rw [h] at hp
  obtain ⟨ha, hp⟩ := List.pairwise_cons.mp hp
  obtain ⟨hb, _⟩ := List.pairwise_cons.mp hp
  exact ⟨ha b (by simp), hb c (by simp)⟩

lemma mem_of_mem_sortDesc {x : ℚ} {xs : List ℚ} (h : x ∈ sortDesc xs) :
    x ∈ xs := by
  have : x ∈ sortAsc xs := by
    rw [sortDesc] at h
    exact (List.mem_reverse).mp h
  exact ((List.perm_insertionSort _ xs).mem_iff).mp this

/-! ## Level-ordering facts -/

lemma buySL_le (entry atr : ℚ) (lows : List ℚ) :
    buySL entry atr lows ≤ entry - atr * 2 := by
  simp only [buySL, ATR_SL_MULT]
  exact min_le_right _ _

lemma buyRisk_pos (entry atr : ℚ) (lows : List ℚ) (h : 0 < atr) :
    0 < buyRisk entry atr lows := by
  have := buySL_le entry atr lows
  simp only [buyRisk]
  linarith

lemma le_sellSL (entry atr : ℚ) (highs : List ℚ) :
    entry + atr * 2 ≤ sellSL entry atr highs := by
  simp only [sellSL, ATR_SL_MULT]
  exact le_max_right _ _

lemma sellRisk_pos (entry atr : ℚ) (highs : List ℚ) (h : 0 < atr) :
    0 < sellRisk entry atr highs := by
  have := le_sellSL entry atr highs
  simp only [sellRisk]
  linarith

lemma buyTPs_fst_ge (entry risk : ℚ) (highs : List ℚ) :
    entry + risk ≤ (buyTPs entry risk highs).1 := by
  simp only [buyTPs]
  split
  · split
    · dsimp only
      split
      · exact le_refl _
      · rename_i h
        exact not_lt.mp h
    · exact le_refl _
  · exact le_refl _

lemma buyTPs_tp2_le_tp3 (entry risk : ℚ) (highs : List ℚ) (h : 0 ≤ risk) :
    (buyTPs entry risk highs).2.1 ≤ (buyTPs entry risk highs).2.2 := by
  simp only [buyTPs]
  split
  · split
    · rename_i heq
      dsimp only
      exact (sortAsc_cons3 heq).2
    · dsimp only
      linarith
  · dsimp only
    linarith

lemma sellTPs_tp3_le_tp2 (entry atr : ℚ) (lows : List ℚ) (h : 0 ≤ atr) :
    (sellTPs entry atr lows).2.2 ≤ (sellTPs entry atr lows).2.1 := by
  simp only [sellTPs, MIN_RR]
  split
  · split
    · split
      · rename_i heq
        dsimp only
        exact (sortDesc_cons3 heq).2
      · dsimp only
        linarith
    · dsimp only
      linarith
  · dsimp only
    linarith

lemma buyTP1_ge (entry atr : ℚ) (lows highs : List ℚ) (h : 0 < atr) :
    entry + buyRisk entry atr lows * 2 ≤ buyTP1 entry atr lows highs := by
  have hr := buyRisk_pos entry atr lows h
  simp only [buyTP1, MIN_RR]
  split
  · exact le_refl _
  · rename_i hc
    have h2 : (2 : ℚ) ≤
        ((buyTPs entry (buyRisk entry atr lows) highs).1 - entry) /
          buyRisk entry atr lows := not_lt.mp hc
    have := (le_div_iff₀ hr).mp h2
    linarith

lemma sellTP1_le (entry atr : ℚ) (lows highs : List ℚ) (h : 0 < atr) :
    sellTP1 entry atr lows highs ≤ entry - sellRisk entry atr highs * 2 := by
  have hr := sellRisk_pos entry atr highs h
  simp only [sellTP1, MIN_RR]
  split
  · exact le_refl _
  · rename_i hc
    have h2 : (2 : ℚ) ≤
        (entry - sellTP1a entry atr lows) / sellRisk entry atr highs :=
      not_lt.mp hc
    have := (le_div_iff₀ hr).mp h2
    linarith

/-! ## Claim C1 -/

/-- C1 counterexample: with positive ATR and prices (`entry = 100`,
`atr = 3`, lows `[95]`, highs `[101, 102, 103]`), the BUY candidate of
`get_data_and_analyze` has `tp1 = 112 > tp2 = 102`: the minimum-RR widening
of `tp1` pushes it above the second resistance target, so the claimed chain
`stop_loss < entry ≤ tp1 ≤ tp2 ≤ tp3` is false. -/
theorem levels_full_chain_fails_buy :
    ¬ ((buyLevels 100 3 [95] [101, 102, 103]).sl < 100 ∧
       100 ≤ (buyLevels 100 3 [95] [101, 102, 103]).tp1 ∧
       (buyLevels 100 3 [95] [101, 102, 103]).tp1 ≤
         (buyLevels 100 3 [95] [101, 102, 103]).tp2 ∧
       (buyLevels 100 3 [95] [101, 102, 103]).tp2 ≤
         (buyLevels 100 3 [95] [101, 102, 103]).tp3) := by
  have h1 : (buyLevels 100 3 [95] [101, 102, 103]).tp1 = 112 := by
    norm_num [buyLevels, buyTP1, buyTPs, buyRisk, buySL, nlargest3, sortDesc,
      sortAsc, nsmallest3, listMin, MIN_RR, ATR_SL_MULT, List.insertionSort,
      List.orderedInsert]
  have h2 : (buyLevels 100 3 [95] [101, 102, 103]).tp2 = 102 := by
    norm_num [buyLevels, buyTP1, buyTPs, buyRisk, buySL, nlargest3, sortDesc,
      sortAsc, nsmallest3, listMin, MIN_RR, ATR_SL_MULT, List.insertionSort,
      List.orderedInsert]
  intro h
  obtain ⟨-, -, h3, -⟩ := h
  rw [h1, h2] at h3
  norm_num at h3

/-- C1 amended: for every BUY candidate of `get_data_and_analyze` (positive
ATR), `stop_loss < entry < tp1` and `tp2 ≤ tp3` hold, and for every SELL
candidate the mirrored `tp1 < entry < stop_loss` and `tp3 ≤ tp2` hold; the
links `tp1 ≤ tp2` (BUY) and `tp2 ≤ tp1` (SELL) are not guaranteed, because
the minimum-RR correction widens `tp1` past the neighbouring target
(counterexample above). -/
theorem levels_side_ordering (entry atr : ℚ) (lows highs : List ℚ)
    (hatr : 0 < atr) :
    ((buyLevels entry atr lows highs).sl < entry ∧
     entry < (buyLevels entry atr lows highs).tp1 ∧
     (buyLevels entry atr lows highs).tp2 ≤ (buyLevels entry atr lows highs).tp3) ∧
    ((sellLevels entry atr lows highs).tp1 < entry ∧
     entry < (sellLevels entry atr lows highs).sl ∧
     (sellLevels entry atr lows highs).tp3 ≤ (sellLevels entry atr lows highs).tp2) := by
  have hbsl := buySL_le entry atr lows
  have hbr := buyRisk_pos entry atr lows hatr
  have hbtp1 := buyTP1_ge entry atr lows highs hatr
  have hssl := le_sellSL entry atr highs
  have hsr := sellRisk_pos entry atr highs hatr
  have hstp1 := sellTP1_le entry atr lows highs hatr
  refine ⟨⟨?_, ?_, ?_⟩, ?_, ?_, ?_⟩
  · show buySL entry atr lows < entry
    linarith
  · show entry < buyTP1 entry atr lows highs
    linarith
  · exact buyTPs_tp2_le_tp3 entry (buyRisk entry atr lows) highs (le_of_lt hbr)
  · show sellTP1 entry atr lows highs < entry
    linarith
  · show entry < sellSL entry atr highs
    linarith
  · exact sellTPs_tp3_le_tp2 entry atr lows (le_of_lt hatr)

/-- Witness for C1's amended theorem at `entry = 100`, `atr = 3`,
lows `[95, 96, 97]`, highs `[104, 105, 106]`. -/
theorem levels_side_ordering_witness :
    ((buyLevels 100 3 [95, 96, 97] [104, 105, 106]).sl < 100 ∧
     100 < (buyLevels 100 3 [95, 96, 97] [104, 105, 106]).tp1 ∧
     (buyLevels 100 3 [95, 96, 97] [104, 105, 106]).tp2 ≤
       (buyLevels 100 3 [95, 96, 97] [104, 105, 106]).tp3) ∧
    ((sellLevels 100 3 [95, 96, 97] [104, 105, 106]).tp1 < 100 ∧
     100 < (sellLevels 100 3 [95, 96, 97] [104, 105, 106]).sl ∧
     (sellLevels 100 3 [95, 96, 97] [104, 105, 106]).tp3 ≤
       (sellLevels 100 3 [95, 96, 97] [104, 105, 106]).tp2) :=
  levels_side_ordering 100 3 [95, 96, 97] [104, 105, 106] (by norm_num)

/-! ## Claim C2 -/

/-- C2 amended: on the `get_data_and_analyze` construction path, the
realized reward-to-risk ratio of `take_profit_1` — `(tp1 - entry) / risk`
for BUY, `(entry - tp1) / risk` for SELL, as recomputed after the
correction step — is at least `MIN_RR` for every candidate (positive ATR,
hence nonzero risk distance). The `analyze_pair` path does NOT satisfy this
(counterexample below). -/
theorem min_rr_enforced_main_path (entry atr : ℚ) (lows highs : List ℚ)
    (hatr : 0 < atr) :
    MIN_RR ≤ (buyLevels entry atr lows highs).risk_reward ∧
    MIN_RR ≤ (sellLevels entry atr lows highs).risk_reward := by
  constructor
  · show MIN_RR ≤ (buyTP1 entry atr lows highs - entry) / buyRisk entry atr lows
    show (2 : ℚ) ≤ _
    exact (le_div_iff₀ (buyRisk_pos entry atr lows hatr)).mpr
      (by linarith [buyTP1_ge entry atr lows highs hatr])
  · show MIN_RR ≤ (entry - sellTP1 entry atr lows highs) / sellRisk entry atr highs
    show (2 : ℚ) ≤ _
    exact (le_div_iff₀ (sellRisk_pos entry atr highs hatr)).mpr
      (by linarith [sellTP1_le entry atr lows highs hatr])

/-- Witness for C2's amended theorem at `entry = 100`, `atr = 3`,
lows `[95]`, highs `[101, 102, 103]`. -/
theorem min_rr_enforced_main_path_witness :
    MIN_RR ≤ (buyLevels 100 3 [95] [101, 102, 103]).risk_reward ∧
    MIN_RR ≤ (sellLevels 100 3 [95] [101, 102, 103]).risk_reward :=
  min_rr_enforced_main_path 100 3 [95] [101, 102, 103] (by norm_num)

/-- A candidate as built by `analyze_pair` with current price 100 and
ATR 2 (`entry_price = 100`, `stop_loss = 97`, `take_profit_1 = 102`), with
three agreeing bullish timeframes, oversold RSI and a volume spike. -/
def apCandidate : SignalData :=
  ⟨"BTC/USDT", some "BUY",
   some [("15m", ⟨"bullish", "BUY", 1 / 2, some "bullish"⟩),
         ("1h", ⟨"bullish", "BUY", 2 / 5, some "bullish"⟩),
         ("4h", ⟨"bullish", "BUY", 1 / 2, some "bullish"⟩)],
   some 5000000, some 28, some 100, some 97, some 102, some 2⟩

/-- Twenty historical volume bars of 1,000,000. -/
def apVolumes : List ℚ := List.replicate 20 1000000

/-- C2 counterexample: the `analyze_pair` construction path fixes
`take_profit_1 = entry + 1.0*ATR` against `stop_loss = entry - 1.5*ATR`, a
realized reward-to-risk of 2/3 < MIN_RR, with no correction step; and such
a candidate still passes the quality gate (the above one rates MEDIUM), so
it is returned by the generator. The claim's "holds on every
candidate-construction path" is therefore false. -/
theorem analyze_pair_rr_below_min :
    ((analyzePairLevels "BUY" 100 2).2.2.1 - (analyzePairLevels "BUY" 100 2).1) /
        ((analyzePairLevels "BUY" 100 2).1 - (analyzePairLevels "BUY" 100 2).2.1) <
      MIN_RR ∧
    (rateSignal (some apCandidate) (some apVolumes) 9).strength = "MEDIUM" ∧
    qualityGate (rateSignal (some apCandidate) (some apVolumes) 9).strength
        (analyzePairLevels "BUY" 100 2) =
      some (analyzePairLevels "BUY" 100 2) := by
  have hstrength :
      (rateSignal (some apCandidate) (some apVolumes) 9).strength = "MEDIUM" := by
    norm_num [rateSignal, apCandidate, apVolumes, rateMtfConsensus,
      rateTrendStrength, rateVolume, rateRsi, rateRiskReward, rateVolatility,
      checkDivergence, checkSupportResistance, rateTimeOfDay,
      rateNewsBackground, calculateStrength, SignalStrength.value,
      volumePeriod, List.replicate, getRecommendation, List.filter,
      List.filterMap, Option.getD, List.length, Option.some_ne_none,
      reduceCtorEq]
  refine ⟨by norm_num [analyzePairLevels, MIN_RR], hstrength, ?_⟩
  rw [hstrength]
  simp [qualityGate]

/-! ## Claim C3 -/

lemma votes_zero_of_no_participating {results : List (String × TFResult)}
    (h : participating results = []) :
    voteBuyOf results = 0 ∧ voteSellOf results = 0 := by
  constructor <;> simp [voteBuyOf, voteSellOf, h]

/-- C3 amended: with no participating directional signal the consensus is
`("none", 0)` exactly; a strict weighted majority yields that side with
confidence `(winning tally / total participating weight + weighted-strength
sum) / 2`; but a TIE with at least one participating signal yields direction
`"none"` with confidence `weighted-strength sum / 2`, which is 0 only when
all participating strengths are 0 — not "exactly 0" as claimed
(counterexample below). -/
theorem consensus_cases (results : List (String × TFResult)) :
    (participating results = [] → calculateConsensus results = ⟨"none", 0⟩) ∧
    (participating results ≠ [] → voteBuyOf results = voteSellOf results →
      (calculateConsensus results).final_signal = "none" ∧
      (calculateConsensus results).confidence = weightedStrengthOf results / 2) ∧
    (voteSellOf results < voteBuyOf results →
      (calculateConsensus results).final_signal = "BUY" ∧
      (calculateConsensus results).confidence =
        (voteBuyOf results / totalWeightOf results + weightedStrengthOf results) / 2) ∧
    (voteBuyOf results < voteSellOf results →
      (calculateConsensus results).final_signal = "SELL" ∧
      (calculateConsensus results).confidence =
        (voteSellOf results / totalWeightOf results + weightedStrengthOf results) / 2) := by
  refine ⟨?_, ?_, ?_, ?_⟩
  · intro h
    simp [calculateConsensus, h]
  · intro hne htie
    simp only [calculateConsensus, if_neg hne]
    rw [if_neg (htie ▸ lt_irrefl _), if_neg (htie ▸ lt_irrefl _)]
    exact ⟨rfl, by rw [zero_add]⟩
  · intro hlt
    have hne : participating results ≠ [] := by
      intro h
      obtain ⟨hb, hs⟩ := votes_zero_of_no_participating h
      rw [hb, hs] at hlt
      exact lt_irrefl _ hlt
    simp only [calculateConsensus, if_neg hne]
    rw [if_pos hlt]
    exact ⟨rfl, rfl⟩
  · intro hlt
    have hne : participating results ≠ [] := by
      intro h
      obtain ⟨hb, hs⟩ := votes_zero_of_no_participating h
      rw [hb, hs] at hlt
      exact lt_irrefl _ hlt
    simp only [calculateConsensus, if_neg hne]
    rw [if_neg (asymm hlt), if_pos hlt]
    exact ⟨rfl, rfl⟩

/-- A weighted tie: BUY on 15m and 1h (weight 0.2 + 0.3), SELL on 4h
(weight 0.5), each with strength 0.3. -/
def tieResults : List (String × TFResult) :=
  [("15m", ⟨"bullish", "BUY", 3 / 10, some "bullish"⟩),
   ("1h", ⟨"bullish", "BUY", 3 / 10, some "bullish"⟩),
   ("4h", ⟨"bearish", "SELL", 3 / 10, some "bearish"⟩)]

/-- C3 counterexample: on a weighted tie with three participating signals
the source sets `confidence = 0` but then still applies the blend
`confidence = (confidence + weighted_strength) / 2`, so the returned
confidence is `3/20 ≠ 0` — the claim's "ties yield confidence exactly 0"
is false. -/
theorem consensus_tie_confidence_nonzero :
    (participating tieResults).length = 3 ∧
    voteBuyOf tieResults = voteSellOf tieResults ∧
    (calculateConsensus tieResults).final_signal = "none" ∧
    (calculateConsensus tieResults).confidence = 3 / 20 ∧
    (calculateConsensus tieResults).confidence ≠ 0 := by
  refine ⟨?_, ?_, ?_, ?_, ?_⟩ <;>
    simp [tieResults, participating, voteBuyOf, voteSellOf,
      calculateConsensus, weightedStrengthOf, totalWeightOf, tfWeight,
      List.filter_cons, List.filter_nil] <;> norm_num

/-- Witness for C3's amended theorem: a lone 4h BUY signal of strength 0.5
wins the vote with confidence `(0.5/0.5 + 0.25)/2`. -/
theorem consensus_cases_witness :
    (calculateConsensus [("4h", ⟨"bullish", "BUY", 1 / 2, some "bullish"⟩)]).final_signal
        = "BUY" ∧
    (calculateConsensus [("4h", ⟨"bullish", "BUY", 1 / 2, some "bullish"⟩)]).confidence =
      (voteBuyOf [("4h", ⟨"bullish", "BUY", 1 / 2, some "bullish"⟩)] /
          totalWeightOf [("4h", ⟨"bullish", "BUY", 1 / 2, some "bullish"⟩)] +
        weightedStrengthOf [("4h", ⟨"bullish", "BUY", 1 / 2, some "bullish"⟩)]) / 2 :=
  (consensus_cases _).2.2.1
    (by simp [voteBuyOf, voteSellOf, participating, tfWeight,
      List.filter_cons, List.filter_nil])

/-! ## Claim C4 -/

/-- C4: the Quality Rater is deterministic. `rate_signal` reads no state
besides its two arguments and the current UTC hour (inside
`_rate_time_of_day`); with the hour held fixed, two runs on the identical
candidate and identical historical data produce reports with equal
strength, total_score, max_score, percentage, factors and recommendation.
(The report's `timestamp` entry, a full wall-clock stamp, is the one field
outside this comparison, matching the claim.) -/
theorem rate_signal_deterministic (sd : Option SignalData)
    (hist : Option (List ℚ)) (hour : ℕ) (r1 r2 : QualityReport)
    (h1 : r1 = rateSignal sd hist hour) (h2 : r2 = rateSignal sd hist hour) :
    r1.strength = r2.strength ∧ r1.total_score = r2.total_score ∧
    r1.max_score = r2.max_score ∧ r1.percentage = r2.percentage ∧
    r1.factors = r2.factors ∧ r1.recommendation = r2.recommendation := by
  subst h1
  subst h2
  exact ⟨rfl, rfl, rfl, rfl, rfl, rfl⟩

/-- Witness for C4 at the concrete candidate `apCandidate`, 20 volume bars
and UTC hour 9. -/
theorem rate_signal_deterministic_witness :
    (rateSignal (some apCandidate) (some apVolumes) 9).strength =
      (rateSignal (some apCandidate) (some apVolumes) 9).strength ∧
    (rateSignal (some apCandidate) (some apVolumes) 9).total_score =
      (rateSignal (some apCandidate) (some apVolumes) 9).total_score ∧
    (rateSignal (some apCandidate) (some apVolumes) 9).max_score =
      (rateSignal (some apCandidate) (some apVolumes) 9).max_score ∧
    (rateSignal (some apCandidate) (some apVolumes) 9).percentage =
      (rateSignal (some apCandidate) (some apVolumes) 9).percentage ∧
    (rateSignal (some apCandidate) (some apVolumes) 9).factors =
      (rateSignal (some apCandidate) (some apVolumes) 9).factors ∧
    (rateSignal (some apCandidate) (some apVolumes) 9).recommendation =
      (rateSignal (some apCandidate) (some apVolumes) 9).recommendation :=
  rate_signal_deterministic (some apCandidate) (some apVolumes) 9 _ _ rfl rfl

/-! ## Claim C5 -/

/-- C5: `_calculate_strength` classifies by `percentage = score/max*100`
with lower-closed boundaries — ≥90 STRONG, [75,90) HIGH, [60,75) MEDIUM
(percentage exactly 60 is MEDIUM, not LOW), [40,60) LOW, else WEAK — and
the generator's quality gate (`get_data_and_analyze` step 9) drops every
candidate classified WEAK or LOW, returning no signal. -/
theorem strength_classification_and_gate (score maxScore : ℕ)
    (hmax : 0 < maxScore) :
    ((90 : ℚ) ≤ (score : ℚ) / maxScore * 100 →
      calculateStrength score maxScore = .STRONG) ∧
    ((75 : ℚ) ≤ (score : ℚ) / maxScore * 100 ∧ (score : ℚ) / maxScore * 100 < 90 →
      calculateStrength score maxScore = .HIGH) ∧
    ((60 : ℚ) ≤ (score : ℚ) / maxScore * 100 ∧ (score : ℚ) / maxScore * 100 < 75 →
      calculateStrength score maxScore = .MEDIUM) ∧
    ((40 : ℚ) ≤ (score : ℚ) / maxScore * 100 ∧ (score : ℚ) / maxScore * 100 < 60 →
      calculateStrength score maxScore = .LOW) ∧
    ((score : ℚ) / maxScore * 100 < 40 →
      calculateStrength score maxScore = .WEAK) ∧
    (∀ sig : Levels,
      calculateStrength score maxScore = .WEAK ∨
        calculateStrength score maxScore = .LOW →
      qualityGate (calculateStrength score maxScore).value sig = none) := by
  simp only [calculateStrength, if_pos hmax]
  refine ⟨?_, ?_, ?_, ?_, ?_, ?_⟩
  · intro h
    rw [if_pos h]
  · rintro ⟨h1, h2⟩
    rw [if_neg (by linarith), if_pos h1]
  · rintro ⟨h1, h2⟩
    rw [if_neg (by linarith), if_neg (by linarith), if_pos h1]
  · rintro ⟨h1, h2⟩
    rw [if_neg (by linarith), if_neg (by linarith), if_neg (by linarith),
      if_pos h1]
  · intro h
    rw [if_neg (by linarith), if_neg (by linarith), if_neg (by linarith),
      if_neg (by linarith)]
  · intro sig h
    rcases h with h | h <;> rw [h] <;> simp [qualityGate, SignalStrength.value]

/-- Witness for C5 at `score = 6`, `maxScore = 10` (percentage exactly 60 →
MEDIUM) and at `score = 4`, `maxScore = 10` (percentage 40 → LOW, which the
gate drops). -/
theorem strength_classification_and_gate_witness :
    calculateStrength 6 10 = SignalStrength.MEDIUM ∧
    calculateStrength 4 10 = SignalStrength.LOW ∧
    qualityGate (calculateStrength 4 10).value
      (⟨0, 0, 0, 0, 0, 0⟩ : Levels) = none := by
  have h6 := (strength_classification_and_gate 6 10 (by norm_num)).2.2.1
    (by norm_num)
  have h4 := (strength_classification_and_gate 4 10 (by norm_num)).2.2.2.1
    (by norm_num)
  have hg := (strength_classification_and_gate 4 10 (by norm_num)).2.2.2.2.2
    (⟨0, 0, 0, 0, 0, 0⟩ : Levels) (Or.inr h4)
  exact ⟨h6, h4, hg⟩

/-! ## Claims C6 and C10 -/

lemma lazyReset_id {user : User} {now : ℤ}
    (h : ∀ t, user.risk_reset_time = some t → ¬ t < now) :
    lazyReset user now = user := by
  unfold lazyReset
  cases hr : user.risk_reset_time with
  | none => rfl
  | some t => exact if_neg (h t hr)

/-- C6: for every existing user whose reset time has not elapsed, with
`daily_risk_used = 4.0`, `daily_risk_limit = 5.0` and open-position count
below the cap, an admission check with `signal_risk = 2.0` is rejected
(4.0 + 2.0 > 5.0), while with `signal_risk = 0.9` it is admitted with
position size `(deposit * risk_per_trade / 100) / (signal_risk / 100)`
rounded to 2 decimals. -/
theorem risk_admission_cases (user : User) (now : ℤ) (openCount : ℕ)
    (d rpt : ℚ)
    (hreset : ∀ t, user.risk_reset_time = some t → ¬ t < now)
    (hused : user.daily_risk_used = 4)
    (hlimit : user.daily_risk_limit = some 5)
    (hopen : openCount < orDefaultNat user.max_open_positions 5)
    (hdep : user.deposit = some d) (hd : d ≠ 0)
    (hrpt : user.risk_per_trade = some rpt) (hrp : rpt ≠ 0) :
    checkUserLimits user 2 now openCount =
      some ⟨false, "daily risk limit reached", none⟩ ∧
    checkUserLimits user (9 / 10) now openCount =
      some ⟨true, "limits ok",
        some (round2 ((d * rpt / 100) / ((9 / 10) / 100)))⟩ := by
  have hlr := lazyReset_id hreset
  constructor
  · simp only [checkUserLimits, hlr, hused, hlimit, orDefault]
    norm_num
  · simp only [checkUserLimits, hlr, hused, hlimit, hdep, hrpt, orDefault]
    rw [if_neg hd, if_neg hrp]
    rw [if_neg (by norm_num), if_neg (not_le.mpr hopen)]
    simp only [calculatePositionSize]
    rw [if_neg (by norm_num)]

/-- Witness for C6: a user with limit 5, used 4, reset one day ahead,
deposit 1000 and 1% risk per trade; rejected at risk 2.0, admitted at 0.9
with position size 1111.11. -/
theorem risk_admission_cases_witness :
    checkUserLimits ⟨some 5, 4, some 100, some 5, some 1000, some 1⟩ 2 50 0 =
      some ⟨false, "daily risk limit reached", none⟩ ∧
    checkUserLimits ⟨some 5, 4, some 100, some 5, some 1000, some 1⟩ (9 / 10) 50 0 =
      some ⟨true, "limits ok",
        some (round2 ((1000 * 1 / 100) / ((9 / 10) / 100)))⟩ :=
  risk_admission_cases ⟨some 5, 4, some 100, some 5, some 1000, some 1⟩ 50 0
    1000 1
    (by intro t ht; cases ht; norm_num)
    rfl rfl (by norm_num [orDefaultNat]) rfl (by norm_num) rfl (by norm_num)

/-- C10: `calculate_position_size` divides by `signal_risk / 100` with no
guard, so for every user passing the daily-limit and open-position checks an
admission check with `signal_risk = 0` raises `ZeroDivisionError` (modelled
as `none`: no allowed/rejected decision is returned), while any nonzero
`signal_risk` always yields a decision. -/
theorem position_size_partial_at_zero_risk (user : User) (now : ℤ)
    (openCount : ℕ)
    (hreset : ∀ t, user.risk_reset_time = some t → ¬ t < now)
    (hdaily : user.daily_risk_used ≤ orDefault user.daily_risk_limit 5)
    (hopen : openCount < orDefaultNat user.max_open_positions 5) :
    checkUserLimits user 0 now openCount = none ∧
    ∀ risk : ℚ, risk ≠ 0 → (checkUserLimits user risk now openCount).isSome := by
  have hlr := lazyReset_id hreset
  constructor
  · simp only [checkUserLimits, hlr]
    rw [if_neg (by linarith), if_neg (not_le.mpr hopen)]
    simp [calculatePositionSize]
  · intro risk hrisk
    simp only [checkUserLimits, hlr]
    split
    · rfl
    · split
      · rfl
      · simp [calculatePositionSize, hrisk]

/-- Witness for C10: the same user as in the C6 witness gets no decision at
`signal_risk = 0` and a decision at `signal_risk = 1`. -/
theorem position_size_partial_at_zero_risk_witness :
    checkUserLimits ⟨some 5, 4, some 100, some 5, some 1000, some 1⟩ 0 50 0 =
      none ∧
    (checkUserLimits ⟨some 5, 4, some 100, some 5, some 1000, some 1⟩ 1 50 0).isSome := by
  have h := position_size_partial_at_zero_risk
    ⟨some 5, 4, some 100, some 5, some 1000, some 1⟩ 50 0
    (by intro t ht; cases ht; norm_num)
    (by norm_num [orDefault])
    (by norm_num [orDefaultNat])
  exact ⟨h.1, h.2 1 (by norm_num)⟩

/-! ## Claim C7 -/

lemma checkClose_buy (sym : String) (e tp sl p : ℚ) :
    checkClose ⟨sym, "buy", e, tp, sl⟩ p =
      if tp ≤ p then some "TP" else if p ≤ sl then some "SL" else none := by
  simp [checkClose]

lemma checkClose_sell (sym : String) (e tp sl p : ℚ) :
    checkClose ⟨sym, "sell", e, tp, sl⟩ p =
      if p ≤ tp then some "TP" else if sl ≤ p then some "SL" else none := by
  simp [checkClose]

/-- The BUY signal of the claim: entry 100, stop 95, active target 110. -/
def buyOpenSig : TrackedSig := ⟨"BTC/USDT", "buy", 100, 110, 95⟩

/-- The mirrored SELL signal: entry 100, target 90, stop 105. -/
def sellOpenSig : TrackedSig := ⟨"ETH/USDT", "sell", 100, 90, 105⟩

/-- C7: one monitoring tick on the open BUY signal (entry 100, stop 95,
target 110) closes it as SL when the observed price is ≤ 95, as TP when
≥ 110, and leaves it open for any price strictly between; at most one
transition fires per tick, and a transitioned signal is removed from the
active set exactly once (the tick's closed list has exactly that one entry
and the surviving open list is empty). SELL mirrors with stop above and
target below entry. -/
theorem tracker_tick_transitions (p : ℚ) :
    (p ≤ 95 → checkClose buyOpenSig p = some "SL" ∧
      monitorTick [buyOpenSig] (fun _ => p) = ([], [(buyOpenSig, "SL")])) ∧
    (110 ≤ p → checkClose buyOpenSig p = some "TP" ∧
      monitorTick [buyOpenSig] (fun _ => p) = ([], [(buyOpenSig, "TP")])) ∧
    (95 < p → p < 110 → checkClose buyOpenSig p = none ∧
      monitorTick [buyOpenSig] (fun _ => p) = ([buyOpenSig], [])) ∧
    (monitorTick [buyOpenSig] (fun _ => p)).2.length ≤ 1 ∧
    (105 ≤ p → checkClose sellOpenSig p = some "SL") ∧
    (p ≤ 90 → checkClose sellOpenSig p = some "TP") ∧
    (90 < p → p < 105 → checkClose sellOpenSig p = none) := by
  have hbuy := checkClose_buy "BTC/USDT" 100 110 95 p
  have hsell := checkClose_sell "ETH/USDT" 100 90 105 p
  refine ⟨?_, ?_, ?_, ?_, ?_, ?_, ?_⟩
  · intro hp
    have hc : checkClose buyOpenSig p = some "SL" := by
      rw [buyOpenSig, hbuy, if_neg (by linarith), if_pos hp]
    exact ⟨hc, by simp [monitorTick, hc]⟩
  · intro hp
    have hc : checkClose buyOpenSig p = some "TP" := by
      rw [buyOpenSig, hbuy, if_pos hp]
    exact ⟨hc, by simp [monitorTick, hc]⟩
  · intro hp1 hp2
    have hc : checkClose buyOpenSig p = none := by
      rw [buyOpenSig, hbuy, if_neg (by linarith), if_neg (by linarith)]
    exact ⟨hc, by simp [monitorTick, hc]⟩
  · simp only [monitorTick]
    rcases hc : checkClose buyOpenSig (p : ℚ) with - | o <;> simp [hc]
  · intro hp
    rw [sellOpenSig, hsell, if_neg (by linarith), if_pos hp]
  · intro hp
    rw [sellOpenSig, hsell, if_pos hp]
  · intro hp1 hp2
    rw [sellOpenSig, hsell, if_neg (by linarith), if_neg (by linarith)]

/-- Witness for C7 at prices 94 (SL), 111 (TP) and 100 (open). -/
theorem tracker_tick_transitions_witness :
    (checkClose buyOpenSig 94 = some "SL" ∧
      monitorTick [buyOpenSig] (fun _ => 94) = ([], [(buyOpenSig, "SL")])) ∧
    (checkClose buyOpenSig 111 = some "TP" ∧
      monitorTick [buyOpenSig] (fun _ => 111) = ([], [(buyOpenSig, "TP")])) ∧
    (checkClose buyOpenSig 100 = none ∧
      monitorTick [buyOpenSig] (fun _ => 100) = ([buyOpenSig], [])) ∧
    checkClose sellOpenSig 106 = some "SL" :=
  ⟨(tracker_tick_transitions 94).1 (by norm_num),
   (tracker_tick_transitions 111).2.1 (by norm_num),
   (tracker_tick_transitions 100).2.2.1 (by norm_num) (by norm_num),
   (tracker_tick_transitions 106).2.2.2.2.1 (by norm_num)⟩

/-! ## Claim C8 -/

/-- C8: `add_signal` keeps at most one tracked entry per symbol — whenever
the new signal's symbol already appears in the active list, the list is
left unchanged and `save_new_signal` is not called (the persisted history
is unchanged). -/
theorem add_signal_duplicate_suppressed (active : List TrackedSig)
    (sig t : TrackedSig) (hmem : t ∈ active) (hsym : t.symbol = sig.symbol) :
    addSignal active sig = (active, false) := by
  simp only [addSignal]
  rw [if_pos]
  rw [List.any_eq_true]
  exact ⟨t, hmem, decide_eq_true hsym⟩

/-- Witness for C8: adding a second `"BTC/USDT"` signal to a tracker that
already holds one leaves the state unchanged and unpersisted. -/
theorem add_signal_duplicate_suppressed_witness :
    addSignal [⟨"BTC/USDT", "buy", 100, 110, 95⟩]
      ⟨"BTC/USDT", "sell", 101, 90, 106⟩ =
      ([⟨"BTC/USDT", "buy", 100, 110, 95⟩], false) :=
  add_signal_duplicate_suppressed _ _ ⟨"BTC/USDT", "buy", 100, 110, 95⟩
    (by simp) rfl

/-! ## Claim C9 -/

/-- C9: if fetching or analyzing a configured timeframe fails with any
exception, `analyze_all_timeframes` still returns (no exception escapes —
the embedding is a total function), that timeframe's entry is exactly
`{trend: 'neutral', signal: 'none', strength: 0}`, and every other
timeframe whose analysis succeeds keeps its computed result. -/
theorem analyze_all_timeframes_degrades (tfs : List String)
    (analyze : String → Except String TFResult) (tf e : String)
    (hmem : tf ∈ tfs) (herr : analyze tf = .error e) :
    (tf, degradedResult) ∈ (analyzeAllTimeframes tfs analyze).timeframe_results ∧
    ∀ tf2 r2, tf2 ∈ tfs → analyze tf2 = .ok r2 →
      (tf2, r2) ∈ (analyzeAllTimeframes tfs analyze).timeframe_results := by
  constructor
  · exact List.mem_map.mpr ⟨tf, hmem, by simp [herr]⟩
  · intro tf2 r2 hmem2 hok
    exact List.mem_map.mpr ⟨tf2, hmem2, by simp [hok]⟩

/-- Witness for C9: with `15m` failing and `1h`, `4h` succeeding, the
degraded entry appears for `15m` and the computed one for `1h`. -/
theorem analyze_all_timeframes_degrades_witness :
    ("15m", degradedResult) ∈
      (analyzeAllTimeframes ["15m", "1h", "4h"] (fun tf =>
        if tf = "15m" then .error "network"
        else .ok ⟨"bullish", "BUY", 1 / 2, some "bullish"⟩)).timeframe_results ∧
    ("1h", (⟨"bullish", "BUY", 1 / 2, some "bullish"⟩ : TFResult)) ∈
      (analyzeAllTimeframes ["15m", "1h", "4h"] (fun tf =>
        if tf = "15m" then .error "network"
        else .ok ⟨"bullish", "BUY", 1 / 2, some "bullish"⟩)).timeframe_results := by
  have h := analyze_all_timeframes_degrades ["15m", "1h", "4h"]
    (fun tf => if tf = "15m" then .error "network"
      else .ok ⟨"bullish", "BUY", 1 / 2, some "bullish"⟩)
    "15m" "network" (by simp) (by simp)
  exact ⟨h.1, h.2 "1h" ⟨"bullish", "BUY", 1 / 2, some "bullish"⟩ (by simp) (by simp)⟩

end CryptoPulse
